import Mathlib

/-!
# Verification of the GoGoStudy membership/attendance/token backend

Shallow embedding of the core logic of the repository:

* `src/utils/jwt.ts` (token signing/verification, `verifyRefreshToken`),
* `src/config/redis.ts` (`createInMemoryRedis` fallback store),
* `src/modules/studies/studies.routes.ts` (join, member status, remove,
  leave, attendance recording and summaries, study creation),
* the auth service refresh rotation (modelled from the spec, the service
  file itself is not part of the sources).

JavaScript numbers that the code only ever uses as integers are embedded
as `Nat`/`Int`; `Date` instants are epoch milliseconds (`Int`);
JS truthiness of strings/numbers/null is made explicit at each use site.
Fallible handlers return `Except AppErr`; a thrown error aborts the
handler before any later write, so an `.error` result carries no state
change (Express semantics).  `runOp` extracts the resulting database
state, returning the original state on error.
-/

namespace GoGoStudy

/-- Uniform domain error value (`AppError` in `src/utils/errors.ts`):
a status code plus a machine readable code string. -/
structure AppErr where
  statusCode : Nat
  code : String
deriving Repr, DecidableEq

/-! ## Token lifecycle (`src/utils/jwt.ts`) -/

/-- Raw claims of a decoded JWT payload, before `normalizePayload`.
`sub` is `none` when `Number(payload.sub)` is `NaN` (missing or
non-numeric subject); `role`/`type` are `none` when the claim is absent
or not a string; `sessionId` is the optional session claim. -/
structure RawClaims where
  sub : Option Int
  role : Option String
  type : Option String
  sessionId : Option String
deriving Repr, DecidableEq

/-- A signed token: the claims it was signed over, the secret used to
sign it, and its expiry instant (epoch seconds).  `jwt.verify` succeeds
exactly when the verifying secret matches and the token is not expired. -/
structure SignedToken where
  claims : RawClaims
  secret : String
  exp : Nat
deriving Repr, DecidableEq

/-- Normalized payload produced by `normalizePayload`. -/
structure TokenPayload where
  sub : Int
  role : String
  type : String
  sessionId : Option String
deriving Repr, DecidableEq

/-- JS truthiness of an optional string: `undefined` and `""` are falsy. -/
def strTruthy : Option String → Bool
  | none => false
  | some s => s ≠ ""

/-- The configured refresh secret (`env.JWT_REFRESH_SECRET`). -/
def refreshSecret : String := "jwt-refresh-secret"

/-- The configured access secret (`env.JWT_ACCESS_SECRET`). -/
def accessSecret : String := "jwt-access-secret"

/-- `normalizePayload`: reject payloads with a missing numeric subject,
missing role string or missing type string, each with 401
`INVALID_TOKEN`. -/
def normalizePayload (c : RawClaims) : Except AppErr TokenPayload :=
  match c.sub with
  | none => .error ⟨401, "INVALID_TOKEN"⟩
  | some userId =>
    match c.role with
    | none => .error ⟨401, "INVALID_TOKEN"⟩
    | some role =>
      match c.type with
      | none => .error ⟨401, "INVALID_TOKEN"⟩
      | some ty => .ok ⟨userId, role, ty, c.sessionId⟩

/-- `verifyToken`: run `jwt.verify` (signature + expiry) and
`normalizePayload`; any failure is converted to 401 `INVALID_TOKEN` by
the surrounding `catch`. -/
def verifyToken (tok : SignedToken) (secret : String) (now : Nat) :
    Except AppErr TokenPayload :=
  if tok.secret = secret ∧ now < tok.exp then
    match normalizePayload tok.claims with
    | .ok p => .ok p
    | .error _ => .error ⟨401, "INVALID_TOKEN"⟩
  else .error ⟨401, "INVALID_TOKEN"⟩

/-- `verifyAccessToken`: verify against the access secret and require the
`access` type discriminator. -/
def verifyAccessToken (tok : SignedToken) (now : Nat) :
    Except AppErr TokenPayload :=
  match verifyToken tok accessSecret now with
  | .error e => .error e
  | .ok p =>
    if p.type ≠ "access" then .error ⟨401, "INVALID_TOKEN"⟩ else .ok p

/-- `verifyRefreshToken`: verify against the refresh secret and require
the `refresh` type discriminator and a truthy session id. -/
def verifyRefreshToken (tok : SignedToken) (now : Nat) :
    Except AppErr TokenPayload :=
  match verifyToken tok refreshSecret now with
  | .error e => .error e
  | .ok p =>
    if p.type ≠ "refresh" ∨ ¬ strTruthy p.sessionId then
      .error ⟨401, "INVALID_TOKEN"⟩
    else .ok p

/-! ## Refresh rotation (auth service) -/

/-- Session/blacklist state held in the fast store for refresh rotation:
the set of refresh-session identifiers already rotated or revoked. -/
structure RefreshState where
  blacklist : List String
deriving Repr, DecidableEq

/-- Modelled from the spec: the auth service implementing
`refreshTokens` (`src/modules/auth/auth.service.ts`) is not among the
sources, only its router and tests are.  Per the spec, `refreshTokens`
verifies the refresh token, fails with 401 when its session identifier
has already been rotated or revoked, and otherwise rotates: it
invalidates the old refresh token (adds its identifier to the blacklist)
and mints a new access+refresh pair bound to a fresh session id. -/
def refreshTokens (tok : SignedToken) (st : RefreshState) (now : Nat)
    (freshId : String) : Except AppErr (SignedToken × RefreshState) :=
  match verifyRefreshToken tok now with
  | .error e => .error e
  | .ok p =>
    let sid := p.sessionId.getD ""
    if sid ∈ st.blacklist then .error ⟨401, "UNAUTHORIZED"⟩
    else
      let newRefresh : SignedToken :=
        { claims :=
            { sub := some p.sub
              role := some p.role
              type := some "refresh"
              sessionId := some freshId }
          secret := refreshSecret
          exp := now + 60 * 60 * 24 * 7 }
      .ok (newRefresh, ⟨sid :: st.blacklist⟩)

/-! ## In-memory fast store fallback (`createInMemoryRedis`) -/

/-- One stored entry: the value and an optional absolute expiry instant
(epoch milliseconds). -/
structure MemoryEntry where
  value : String
  expiresAt : Option Nat
deriving Repr, DecidableEq

/-- The in-memory store: an association of keys to entries
(`Map` semantics: at most one entry per key by construction of `memSet`). -/
def MemStore : Type := List (String × MemoryEntry)

instance : DecidableEq MemStore := by
  unfold MemStore
  infer_instance

/-- `store.get(key)` on the underlying `Map`. -/
def memLookup (s : MemStore) (k : String) : Option MemoryEntry :=
  (s.find? (fun e => e.1 = k)).map (fun e => e.2)

/-- `store.delete(key)` on the underlying `Map`. -/
def memDelete (s : MemStore) (k : String) : MemStore :=
  s.filter (fun e => e.1 ≠ k)

/-- `isExpired(entry)`: an entry with an expiry is expired once
`expiresAt <= Date.now()`. -/
def isExpired (e : MemoryEntry) (now : Nat) : Bool :=
  match e.expiresAt with
  | none => false
  | some t => t ≤ now

/-- `set(key, value, options)`: store the value, computing
`expiresAt = Date.now() + EX * 1000` when the `EX` option is given. -/
def memSet (s : MemStore) (k v : String) (ex : Option Nat) (now : Nat) :
    MemStore :=
  (k, ⟨v, ex.map (fun n => now + n * 1000)⟩) :: memDelete s k

/-- `get(key)`: `null` for a missing key; an expired entry is deleted and
`null` returned; otherwise the stored value. -/
def memGet (s : MemStore) (k : String) (now : Nat) :
    Option String × MemStore :=
  match memLookup s k with
  | none => (none, s)
  | some e =>
    if isExpired e now then (none, memDelete s k) else (some e.value, s)

/-- `exists(key)`: `0` for a missing key; an expired entry is deleted and
`0` returned; otherwise `1`. -/
def memExists (s : MemStore) (k : String) (now : Nat) : Nat × MemStore :=
  match memLookup s k with
  | none => (0, s)
  | some e =>
    if isExpired e now then (0, memDelete s k) else (1, s)

/-! ## Relational state (Prisma models used by the studies router) -/

/-- A `Study` row.  `maxMembers` is nullable (`Int?`); the router parses
the request field with `Number(...)`, so `0` and negative values are
storable. -/
structure Study where
  id : Nat
  leaderId : Nat
  title : String
  description : String
  category : Option String
  maxMembers : Option Int
deriving Repr, DecidableEq

/-- A `StudyMember` row, keyed by the unique `(studyId, userId)` pair. -/
structure StudyMember where
  studyId : Nat
  userId : Nat
  memberRole : String
  status : String
deriving Repr, DecidableEq

/-- An `AttendanceSession` row; `date` is an epoch-millisecond instant. -/
structure AttendanceSession where
  id : Nat
  studyId : Nat
  title : String
  date : Int
deriving Repr, DecidableEq

/-- An `AttendanceRecord` row. -/
structure AttendanceRecord where
  id : Nat
  sessionId : Nat
  userId : Nat
  status : String
deriving Repr, DecidableEq

/-- The relational database state seen by the studies router, together
with the id sequences used for freshly inserted rows. -/
structure DB where
  studies : List Study
  members : List StudyMember
  sessions : List AttendanceSession
  records : List AttendanceRecord
  nextStudyId : Nat
  nextRecordId : Nat
deriving Repr, DecidableEq

/-- `prisma.study.findUnique({ where: { id } })`. -/
def findStudy (db : DB) (studyId : Nat) : Option Study :=
  db.studies.find? (fun s => s.id = studyId)

/-- `prisma.studyMember.findUnique({ where: { studyId_userId } })`. -/
def findMembership (db : DB) (studyId userId : Nat) : Option StudyMember :=
  db.members.find? (fun m => m.studyId = studyId ∧ m.userId = userId)

/-- `prisma.attendanceSession.findUnique({ where: { id } })`. -/
def findSession (db : DB) (sessionId : Nat) : Option AttendanceSession :=
  db.sessions.find? (fun s => s.id = sessionId)

/-- `prisma.studyMember.count({ where: { studyId, status: "APPROVED" } })`. -/
def approvedCount (db : DB) (studyId : Nat) : Nat :=
  (db.members.filter
    (fun m => m.studyId = studyId ∧ m.status = "APPROVED")).length

/-- `prisma.studyMember.count({ where: { studyId, status: "APPROVED",
NOT: { userId } } })`: approved members excluding the target user. -/
def approvedCountExcl (db : DB) (studyId userId : Nat) : Nat :=
  (db.members.filter (fun m =>
    m.studyId = studyId ∧ m.status = "APPROVED" ∧ m.userId ≠ userId)).length

/-- JS truthiness of the nullable `study.maxMembers`: `null` and `0` are
falsy, every other number is truthy. -/
def maxTruthy : Option Int → Bool
  | none => false
  | some v => v ≠ 0

/-- Run a fallible handler purely for its state effect: a thrown error
aborts the handler before any write, leaving the database unchanged. -/
def runOp {α : Type} (op : DB → Except AppErr (α × DB)) (db : DB) : DB :=
  match op db with
  | .ok (_, db2) => db2
  | .error _ => db

/-! ## Membership workflow handlers (studies router) -/

/-- `PATCH /:studyId/members/:userId/status`: validate the requested
status, load study and membership, refuse to touch the leader row,
enforce capacity when approving into a study with a truthy
`maxMembers`, then update the row.  (Modelled after the authenticated,
leader-gated handler body.) -/
def setMemberStatus (db : DB) (studyId userId : Nat) (status : String) :
    Except AppErr (StudyMember × DB) :=
  if status = "" then .error ⟨400, "INVALID_PAYLOAD"⟩
  else if ¬ (status = "APPROVED" ∨ status = "PENDING" ∨ status = "REJECTED")
  then .error ⟨422, "INVALID_MEMBER_STATUS"⟩
  else
    match findStudy db studyId with
    | none => .error ⟨404, "STUDY_NOT_FOUND"⟩
    | some study =>
      match findMembership db studyId userId with
      | none => .error ⟨404, "MEMBERSHIP_NOT_FOUND"⟩
      | some m =>
        if m.memberRole = "LEADER" then .error ⟨400, "INVALID_OPERATION"⟩
        else
          let updated : StudyMember := { m with status := status }
          let db2 : DB :=
            { db with
              members := db.members.map (fun x =>
                if x.studyId = studyId ∧ x.userId = userId then
                  { x with status := status }
                else x) }
          match study.maxMembers with
          | some mx =>
            if status = "APPROVED" ∧ mx ≠ 0 ∧
                mx ≤ (approvedCountExcl db studyId userId : Int) then
              .error ⟨409, "STUDY_FULL"⟩
            else .ok (updated, db2)
          | none => .ok (updated, db2)

/-- `DELETE /:studyId/members/:userId`: load the membership, refuse to
remove the leader row, then delete it. -/
def removeMember (db : DB) (studyId userId : Nat) :
    Except AppErr (Unit × DB) :=
  match findMembership db studyId userId with
  | none => .error ⟨404, "MEMBERSHIP_NOT_FOUND"⟩
  | some m =>
    if m.memberRole = "LEADER" then .error ⟨400, "INVALID_OPERATION"⟩
    else
      .ok ((),
        { db with
          members := db.members.filter (fun x =>
            ¬ (x.studyId = studyId ∧ x.userId = userId)) })

/-- `POST /:studyId/members/leave`: the acting user's own membership is
loaded; the leader cannot leave; otherwise the row is deleted. -/
def leaveStudy (db : DB) (studyId actorId : Nat) :
    Except AppErr (Unit × DB) :=
  match findMembership db studyId actorId with
  | none => .error ⟨404, "MEMBERSHIP_NOT_FOUND"⟩
  | some m =>
    if m.memberRole = "LEADER" then .error ⟨400, "INVALID_OPERATION"⟩
    else
      .ok ((),
        { db with
          members := db.members.filter (fun x =>
            ¬ (x.studyId = studyId ∧ x.userId = actorId)) })

/-- `POST /:studyId/join`: 404 if the study is missing; 409
`ALREADY_JOINED` if any membership row exists for this user (whatever
its status); 409 `STUDY_FULL` when the study has a truthy `maxMembers`
and the approved member count already meets it; otherwise insert a
`MEMBER`/`PENDING` row. -/
def joinStudy (db : DB) (studyId userId : Nat) :
    Except AppErr (StudyMember × DB) :=
  match findStudy db studyId with
  | none => .error ⟨404, "STUDY_NOT_FOUND"⟩
  | some study =>
    match findMembership db studyId userId with
    | some _ => .error ⟨409, "ALREADY_JOINED"⟩
    | none =>
      let created : StudyMember := ⟨studyId, userId, "MEMBER", "PENDING"⟩
      let insert : Except AppErr (StudyMember × DB) :=
        .ok (created, { db with members := db.members ++ [created] })
      match study.maxMembers with
      | some mx =>
        if mx ≠ 0 ∧ mx ≤ (approvedCount db studyId : Int) then
          .error ⟨409, "STUDY_FULL"⟩
        else insert
      | none => insert

/-- The `maxMembers` request field: absent/`null`, non-numeric
(`Number(...)` is `NaN`), or a number. -/
inductive MaxMembersInput where
  | absent
  | nan
  | num (v : Int)
deriving Repr, DecidableEq

/-- `POST /` (create study): validate the payload, then atomically
(`prisma.$transaction`) insert the `Study` row and the creator's
`LEADER`/`APPROVED` `StudyMember` row.  `memberInsertOk` models whether
the second insert of the transaction succeeds in the backing store; when
it fails the transaction rolls back and the database is unchanged. -/
def createStudy (db : DB) (leaderId : Nat) (title description : String)
    (category : Option String) (maxMembers : MaxMembersInput)
    (memberInsertOk : Bool) : Except AppErr (Study × DB) :=
  if title = "" ∨ description = "" then .error ⟨400, "INVALID_PAYLOAD"⟩
  else
    match maxMembers with
    | .nan => .error ⟨400, "INVALID_PAYLOAD"⟩
    | .absent | .num _ =>
      let parsed : Option Int :=
        match maxMembers with
        | .num v => some v
        | _ => none
      let created : Study :=
        ⟨db.nextStudyId, leaderId, title, description, category, parsed⟩
      let leaderRow : StudyMember :=
        ⟨created.id, leaderId, "LEADER", "APPROVED"⟩
      if memberInsertOk then
        .ok (created,
          { db with
            studies := db.studies ++ [created]
            members := db.members ++ [leaderRow]
            nextStudyId := db.nextStudyId + 1 })
      else .error ⟨500, "INTERNAL_ERROR"⟩

/-! ## Attendance recording and aggregation -/

/-- `POST /:studyId/sessions/:sessionId/attendance`: validate the
status, require an `APPROVED` membership of the caller, resolve the
session within the study, then find-existing-and-update or create
(idempotent-by-replacement, not an atomic upsert). -/
def recordAttendance (db : DB) (studyId sessionId userId : Nat)
    (status : String) : Except AppErr (AttendanceRecord × DB) :=
  if ¬ (status = "PRESENT" ∨ status = "LATE" ∨ status = "ABSENT") then
    .error ⟨400, "INVALID_STATUS"⟩
  else
    match findMembership db studyId userId with
    | none => .error ⟨403, "NOT_A_MEMBER"⟩
    | some m =>
      if m.status ≠ "APPROVED" then .error ⟨403, "NOT_A_MEMBER"⟩
      else
        match findSession db sessionId with
        | none => .error ⟨404, "SESSION_NOT_FOUND"⟩
        | some s =>
          if s.studyId ≠ studyId then .error ⟨404, "SESSION_NOT_FOUND"⟩
          else
            match db.records.find? (fun r =>
                r.sessionId = sessionId ∧ r.userId = userId) with
            | some ex =>
              .ok ({ ex with status := status },
                { db with
                  records := db.records.map (fun r =>
                    if r.id = ex.id then { r with status := status } else r) })
            | none =>
              let created : AttendanceRecord :=
                ⟨db.nextRecordId, sessionId, userId, status⟩
              .ok (created,
                { db with
                  records := db.records ++ [created]
                  nextRecordId := db.nextRecordId + 1 })

/-- `prisma.attendanceSession.count({ where: { studyId } })`: the
unfiltered number of sessions of the study. -/
def sessionCount (db : DB) (studyId : Nat) : Nat :=
  (db.sessions.filter (fun s => s.studyId = studyId)).length

/-- Relation filter `where: { session: { studyId } }` on attendance
records: the record's session exists and belongs to the study. -/
def recordInStudy (db : DB) (studyId : Nat) (r : AttendanceRecord) : Bool :=
  match findSession db r.sessionId with
  | some s => s.studyId = studyId
  | none => false

/-- Relation filter `where: { session: { studyId, date: { gte?, lte? } } }`
used by the date-filtered summary: study match plus the optional
inclusive `from`/`to` bounds on the session date. -/
def recordInRange (db : DB) (studyId : Nat)
    (fromDate toDate : Option Int) (r : AttendanceRecord) : Bool :=
  match findSession db r.sessionId with
  | some s =>
    s.studyId = studyId &&
      (match fromDate with
       | some f => f ≤ s.date
       | none => true) &&
      (match toDate with
       | some t => s.date ≤ t
       | none => true)
  | none => false

/-- Model of `prisma.….groupBy`: one row per distinct key occurring in
the list, carrying `_count._all` for that key. -/
def groupCounts {α κ : Type} [DecidableEq κ] (key : α → κ) (l : List α) :
    List (κ × Nat) :=
  (l.map key).dedup.map (fun k =>
    (k, (l.filter (fun x => key x = k)).length))

/-- Reading a grouped count back out (`find(...)?._count._all ?? 0`). -/
def groupLookup {κ : Type} [DecidableEq κ] (g : List (κ × Nat)) (k : κ) :
    Nat :=
  match g.find? (fun e => e.1 = k) with
  | some e => e.2
  | none => 0

/-- `GET /:studyId/attendance/summary`: grouped per-status counts over
the study's attendance records, optionally restricted to sessions whose
date lies in the requested `[from, to]` range. -/
def summaryGrouped (db : DB) (studyId : Nat)
    (fromDate toDate : Option Int) : List (String × Nat) :=
  groupCounts (fun r => r.status)
    (db.records.filter (recordInRange db studyId fromDate toDate))

/-- One per-status count of the summary response
(`summary[status] = item._count._all`). -/
def summaryStatusCount (db : DB) (studyId : Nat)
    (fromDate toDate : Option Int) (status : String) : Nat :=
  groupLookup (summaryGrouped db studyId fromDate toDate) status

/-- The `summary.total` accumulator: the grouped counts summed by the
`reduce` over all status groups. -/
def summaryTotal (db : DB) (studyId : Nat)
    (fromDate toDate : Option Int) : Nat :=
  (summaryGrouped db studyId fromDate toDate).foldl
    (fun acc e => acc + e.2) 0

/-- `Number(x.toFixed(2))` on a non-negative quantity: round to two
decimal places (real-number idealization of the JS float arithmetic). -/
def round2 (q : ℚ) : ℚ := (round (q * 100) : ℤ) / 100

/-- The spec's attendance rate:
`round((present + late) / totalSessions * 100, 2 decimal places)`,
with rate `0` when the study has no sessions. -/
def attendanceRateSpec (present late totalSessions : Nat) : ℚ :=
  if totalSessions = 0 then 0
  else round2 ((((present : ℚ) + (late : ℚ)) / (totalSessions : ℚ)) * 100)

/-- The response of the per-user summary endpoint
`GET /:studyId/attendance/users/:userId`: `{studyId, userId,
totalSessions, summary}` where the `summary` object holds the grouped
per-status counts (`summary` field here) and their `total` accumulated
by the `reduce`.  The endpoint computes no attendance rate. -/
structure UserAttendanceResp where
  studyId : Nat
  userId : Nat
  totalSessions : Nat
  summary : List (String × Nat)
  total : Nat
deriving Repr, DecidableEq

/-- `prisma.attendanceRecord.groupBy({ by: ["status"], where: { userId,
session: { studyId } } })`: the user's records across the study's
sessions, grouped by status. -/
def userAttendanceGrouped (db : DB) (studyId uid : Nat) :
    List (String × Nat) :=
  groupCounts (fun r => r.status)
    (db.records.filter (fun r =>
      decide (r.userId = uid) && recordInStudy db studyId r))

/-- `GET /:studyId/attendance/users/:userId`: load the study (404),
require an `APPROVED` membership of the target user (404
`MEMBER_NOT_FOUND`), allow only the user themself or the study leader
(403 `FORBIDDEN`), then respond with the grouped per-status counts,
their total, and the unfiltered session count. -/
def getUserAttendance (db : DB) (studyId uid actorId : Nat) :
    Except AppErr UserAttendanceResp :=
  match findStudy db studyId with
  | none => .error ⟨404, "STUDY_NOT_FOUND"⟩
  | some study =>
    match findMembership db studyId uid with
    | none => .error ⟨404, "MEMBER_NOT_FOUND"⟩
    | some membership =>
      if membership.status ≠ "APPROVED" then
        .error ⟨404, "MEMBER_NOT_FOUND"⟩
      else if actorId ≠ uid ∧ study.leaderId ≠ actorId then
        .error ⟨403, "FORBIDDEN"⟩
      else
        let grouped := userAttendanceGrouped db studyId uid
        .ok ⟨studyId, uid, sessionCount db studyId, grouped,
          grouped.foldl (fun acc e => acc + e.2) 0⟩

/-! ## Concrete fixtures used by counterexamples and witnesses -/

/-- A study led by user 10, with the given `maxMembers` column. -/
def studyA (mx : Option Int) : Study :=
  ⟨1, 10, "Algo", "Study algorithms", none, mx⟩

/-- The leader's membership row of `studyA`. -/
def leaderRow : StudyMember := ⟨1, 10, "LEADER", "APPROVED"⟩

/-- An ordinary member row of `studyA`. -/
def memberRow (uid : Nat) (st : String) : StudyMember :=
  ⟨1, uid, "MEMBER", st⟩

/-- Study with declared `maxMembers = 0` and a pending applicant. -/
def dbCap0 : DB :=
  ⟨[studyA (some 0)], [leaderRow, memberRow 20 "PENDING"], [], [], 2, 1⟩

/-- Study with `maxMembers = 2`, already two approved members (the
leader and user 20), and a pending applicant 30. -/
def dbCap2 : DB :=
  ⟨[studyA (some 2)],
   [leaderRow, memberRow 20 "APPROVED", memberRow 30 "PENDING"],
   [], [], 2, 1⟩

/-- Study without a maximum whose user 20 was rejected. -/
def dbRejected : DB :=
  ⟨[studyA none], [leaderRow, memberRow 20 "REJECTED"], [], [], 2, 1⟩

/-- Study with room to spare and no row for user 20 yet. -/
def dbJoinable : DB := ⟨[studyA (some 5)], [leaderRow], [], [], 2, 1⟩

/-- A session of `studyA`. -/
def sessionW : AttendanceSession := ⟨7, 1, "Week 1", 1000⟩

/-- Study with an approved member 20 and one session, no records yet. -/
def dbAttend : DB :=
  ⟨[studyA none], [leaderRow, memberRow 20 "APPROVED"], [sessionW], [], 2, 1⟩

/-- Sessions dated day 1 and day 5 (dates 1 and 5). -/
def sessionDay1 : AttendanceSession := ⟨7, 1, "Day 1", 1⟩

/-- See `sessionDay1`. -/
def sessionDay5 : AttendanceSession := ⟨8, 1, "Day 5", 5⟩

/-- User 20 present on day 1. -/
def recDay1 : AttendanceRecord := ⟨1, 7, 20, "PRESENT"⟩

/-- User 20 present on day 5. -/
def recDay5 : AttendanceRecord := ⟨2, 8, 20, "PRESENT"⟩

/-- Two sessions (day 1, day 5), with day 5's attendance stored. -/
def dbDays : DB :=
  ⟨[studyA none], [leaderRow, memberRow 20 "APPROVED"],
   [sessionDay1, sessionDay5], [recDay5], 2, 3⟩

/-- Refresh-shaped raw claims for user 10 with an optional session id. -/
def refreshClaims (sid : Option String) : RawClaims :=
  ⟨some 10, some "USER", some "refresh", sid⟩

/-- A well-formed refresh token expiring at instant 100. -/
def goodRefreshTok : SignedToken :=
  ⟨refreshClaims (some "sess-1"), refreshSecret, 100⟩

/-- A token signed with the wrong secret. -/
def badSigTok : SignedToken :=
  ⟨refreshClaims (some "sess-1"), "attacker-secret", 100⟩

/-- A refresh-secret token whose session id claim is missing. -/
def noSessionTok : SignedToken := ⟨refreshClaims none, refreshSecret, 100⟩

/-! ## Generic list lemmas -/

theorem find_eq_self {κ : Type} [DecidableEq κ] (l : List κ) (k : κ) :
    l.find? (fun x => x = k) = if k ∈ l then some k else none := by
  induction l with
  | nil => rfl
  | cons a t ih =>
    by_cases h : a = k
    · subst h
      rw [List.find?_cons_of_pos _ (by simp), if_pos (List.mem_cons_self a t)]
    · rw [List.find?_cons_of_neg _ (by simp [h]), ih]
      by_cases hk : k ∈ t
      · rw [if_pos hk, if_pos (List.mem_cons_of_mem a hk)]
      · rw [if_neg hk, if_neg (by
          intro hmem
          rcases List.mem_cons.mp hmem with h1 | h2
          · exact h h1.symm
          · exact hk h2)]

theorem find_filter {α : Type} (l : List α) (p q : α → Bool) :
    (l.filter p).find? q = l.find? (fun x => p x && q x) := by
  induction l with
  | nil => rfl
  | cons a t ih =>
    by_cases hp : p a
    · by_cases hq : q a
      · simp [List.filter_cons, hp, List.find?_cons_of_pos, hq]
      · rw [List.filter_cons_of_pos hp,
          List.find?_cons_of_neg _ (by simp [hq]),
          List.find?_cons_of_neg _ (by simp [hq]), ih]
    · rw [List.filter_cons_of_neg hp,
        List.find?_cons_of_neg _ (by simp [hp]), ih]

theorem find_congr {α : Type} (l : List α) (p q : α → Bool)
    (h : ∀ x, p x = q x) : l.find? p = l.find? q := by
  induction l with
  | nil => rfl
  | cons a t ih =>
    cases hp : p a with
    | true =>
      rw [List.find?_cons_of_pos _ hp,
        List.find?_cons_of_pos _ (by rw [← h a]; exact hp)]
    | false =>
      rw [List.find?_cons_of_neg _ (by simp [hp]),
        List.find?_cons_of_neg _ (by rw [← h a]; simp [hp]), ih]

theorem map_eq_self {α : Type} (l : List α) (f : α → α)
    (h : ∀ a ∈ l, f a = a) : l.map f = l := by
  induction l with
  | nil => rfl
  | cons a t ih =>
    rw [List.map_cons, h a (by simp), ih (fun x hx => h x (by simp [hx]))]

theorem foldl_add_snd {κ : Type} (l : List (κ × Nat)) (n : Nat) :
    l.foldl (fun acc e => acc + e.2) n = n + (l.map (fun e => e.2)).sum := by
  induction l generalizing n with
  | nil => rfl
  | cons a t ih =>
    rw [List.foldl_cons, ih, List.map_cons, List.sum_cons, Nat.add_assoc]

theorem groupLookup_groupCounts {α κ : Type} [DecidableEq κ]
    (key : α → κ) (l : List α) (k : κ) :
    groupLookup (groupCounts key l) k =
      l.countP (fun x => key x = k) := by
  unfold groupLookup groupCounts
  rw [List.find?_map]
  have hpred : ((fun (e : κ × Nat) => decide (e.1 = k)) ∘
      fun k2 => (k2, (l.filter (fun x => key x = k2)).length)) =
      fun k2 => decide (k2 = k) := rfl
  rw [hpred, find_eq_self]
  by_cases hk : k ∈ (l.map key).dedup
  · rw [if_pos hk]
    simp [List.countP_eq_length_filter]
  · rw [if_neg hk]
    have hnot : ∀ x ∈ l, ¬ (key x = k) := by
      intro x hx hkey
      exact hk (List.mem_dedup.mpr (hkey ▸ List.mem_map_of_mem key hx))
    have hz : l.countP (fun x => decide (key x = k)) = 0 :=
      List.countP_eq_zero.mpr (by
        intro a ha
        simpa using hnot a ha)
    rw [hz]
    rfl

/-! ## Token verification lemmas and C8 -/

theorem normalizePayload_ok_elim (c : RawClaims) (p : TokenPayload)
    (h : normalizePayload c = .ok p) :
    c.sub = some p.sub ∧ c.role = some p.role ∧ c.type = some p.type ∧
      c.sessionId = p.sessionId := by
  unfold normalizePayload at h
  cases hs : c.sub with
  | none => rw [hs] at h; cases h
  | some u =>
    rw [hs] at h
    cases hr : c.role with
    | none => rw [hr] at h; cases h
    | some r =>
      rw [hr] at h
      cases ht : c.type with
      | none => rw [ht] at h; cases h
      | some ty =>
        rw [ht] at h
        cases h
        exact ⟨rfl, rfl, rfl, rfl⟩

theorem verifyToken_error_code (tok : SignedToken) (secret : String)
    (now : Nat) (e : AppErr) (h : verifyToken tok secret now = .error e) :
    e = ⟨401, "INVALID_TOKEN"⟩ := by
  unfold verifyToken at h
  by_cases hc : tok.secret = secret ∧ now < tok.exp
  · rw [if_pos hc] at h
    cases hnp : normalizePayload tok.claims with
    | ok p =>
      rw [hnp] at h
      dsimp only at h
      cases h
    | error e2 =>
      rw [hnp] at h
      dsimp only at h
      injection h with he
      exact he.symm
  · rw [if_neg hc] at h
    injection h with he
    exact he.symm

theorem verifyRefreshToken_error_code (tok : SignedToken) (now : Nat)
    (e : AppErr) (h : verifyRefreshToken tok now = .error e) :
    e = ⟨401, "INVALID_TOKEN"⟩ := by
  unfold verifyRefreshToken at h
  cases hv : verifyToken tok refreshSecret now with
  | error e2 =>
    rw [hv] at h
    dsimp only at h
    injection h with he
    exact he ▸ verifyToken_error_code tok refreshSecret now e2 hv
  | ok p =>
    rw [hv] at h
    dsimp only at h
    by_cases hg : p.type ≠ "refresh" ∨ ¬ strTruthy p.sessionId = true
    · rw [if_pos hg] at h
      injection h with he
      exact he.symm
    · rw [if_neg hg] at h
      cases h

theorem verifyRefreshToken_ok_elim (tok : SignedToken) (now : Nat)
    (p : TokenPayload) (h : verifyRefreshToken tok now = .ok p) :
    tok.secret = refreshSecret ∧ now < tok.exp ∧
      normalizePayload tok.claims = .ok p ∧
      p.type = "refresh" ∧ strTruthy p.sessionId = true := by
  unfold verifyRefreshToken verifyToken at h
  by_cases hc : tok.secret = refreshSecret ∧ now < tok.exp
  · rw [if_pos hc] at h
    cases hnp : normalizePayload tok.claims with
    | error e2 =>
      rw [hnp] at h
      dsimp only at h
      cases h
    | ok q =>
      rw [hnp] at h
      dsimp only at h
      by_cases hg : q.type ≠ "refresh" ∨ ¬ strTruthy q.sessionId = true
      · rw [if_pos hg] at h
        cases h
      · rw [if_neg hg] at h
        injection h with he
        subst he
        push_neg at hg
        exact ⟨hc.1, hc.2, rfl, hg.1, hg.2⟩
  · rw [if_neg hc] at h
    dsimp only at h
    cases h

/-- C8: `verifyRefreshToken` either returns claims with a (truthy)
session id, or fails with a 401 `INVALID_TOKEN` error; in particular it
fails that way on a bad signature, on expiry, on a missing/wrong `type`
claim, and on a missing session id. -/
theorem verifyRefreshToken_spec (tok : SignedToken) (now : Nat) :
    (∀ e, verifyRefreshToken tok now = .error e →
        e.statusCode = 401 ∧ e.code = "INVALID_TOKEN") ∧
    (∀ p, verifyRefreshToken tok now = .ok p →
        p.type = "refresh" ∧ strTruthy p.sessionId = true) ∧
    (tok.secret ≠ refreshSecret →
        verifyRefreshToken tok now = .error ⟨401, "INVALID_TOKEN"⟩) ∧
    (tok.exp ≤ now →
        verifyRefreshToken tok now = .error ⟨401, "INVALID_TOKEN"⟩) ∧
    (tok.claims.type ≠ some "refresh" →
        verifyRefreshToken tok now = .error ⟨401, "INVALID_TOKEN"⟩) ∧
    (tok.claims.sessionId = none →
        verifyRefreshToken tok now = .error ⟨401, "INVALID_TOKEN"⟩) := by
  have hform : (∀ p, verifyRefreshToken tok now ≠ .ok p) →
      verifyRefreshToken tok now = .error ⟨401, "INVALID_TOKEN"⟩ := by
    intro hno
    cases hv : verifyRefreshToken tok now with
    | ok p => exact absurd hv (hno p)
    | error e => rw [verifyRefreshToken_error_code tok now e hv]
  refine ⟨?_, ?_, ?_, ?_, ?_, ?_⟩
  · intro e he
    have := verifyRefreshToken_error_code tok now e he
    subst this
    exact ⟨rfl, rfl⟩
  · intro p hp
    have h := verifyRefreshToken_ok_elim tok now p hp
    exact ⟨h.2.2.2.1, h.2.2.2.2⟩
  · intro hsec
    exact hform (fun p hp =>
      hsec (verifyRefreshToken_ok_elim tok now p hp).1)
  · intro hexp
    exact hform (fun p hp =>
      absurd (verifyRefreshToken_ok_elim tok now p hp).2.1
        (Nat.not_lt.mpr hexp))
  · intro hty
    refine hform (fun p hp => ?_)
    have h := verifyRefreshToken_ok_elim tok now p hp
    have hnp := normalizePayload_ok_elim tok.claims p h.2.2.1
    exact hty (by rw [hnp.2.2.1, h.2.2.2.1])
  · intro hsid
    refine hform (fun p hp => ?_)
    have h := verifyRefreshToken_ok_elim tok now p hp
    have hnp := normalizePayload_ok_elim tok.claims p h.2.2.1
    have : strTruthy p.sessionId = false := by
      rw [← hnp.2.2.2, hsid]
      rfl
    rw [this] at h
    cases h.2.2.2.2

/-- Witness for C8 at concrete tokens: a token signed with the wrong
secret and a token missing its session id are both rejected with 401
`INVALID_TOKEN`. -/
theorem verifyRefreshToken_spec_witness :
    verifyRefreshToken badSigTok 50 = .error ⟨401, "INVALID_TOKEN"⟩ ∧
    verifyRefreshToken noSessionTok 50 = .error ⟨401, "INVALID_TOKEN"⟩ :=
  ⟨(verifyRefreshToken_spec badSigTok 50).2.2.1 (by decide),
   (verifyRefreshToken_spec noSessionTok 50).2.2.2.2.2 (by decide)⟩

/-! ## In-memory store lemmas and C10 -/

theorem memLookup_delete (s : MemStore) (k : String) :
    memLookup (memDelete s k) k = none := by
  unfold memLookup memDelete
  have : List.find? (fun e => decide (e.1 = k))
      (s.filter (fun e => e.1 ≠ k)) = none := by
    rw [List.find?_eq_none]
    intro a ha
    have := (List.mem_filter.mp ha).2
    simp only [ne_eq, decide_not, Bool.not_eq_eq_eq_not, Bool.not_true,
      decide_eq_false_iff_not] at this
    simp [this]
  rw [this]
  rfl

theorem memLookup_set (s : MemStore) (k v : String) (ex : Option Nat)
    (now : Nat) :
    memLookup (memSet s k v ex now) k =
      some ⟨v, ex.map (fun n => now + n * 1000)⟩ := by
  unfold memLookup memSet
  rw [List.find?_cons_of_pos _ (by simp)]
  rfl

/-- C10: in the in-memory fallback store, after `set(k, v, {EX: n})` at
time `t0`, a `get`/`exists` performed at or after `t0 + n·1000` returns
`null`/`0` and removes the entry, while a `get` before that instant
returns the stored value and leaves the store unchanged. -/
theorem memStore_expiry (s : MemStore) (k v : String) (n t0 t : Nat) :
    (t0 + n * 1000 ≤ t →
       (memGet (memSet s k v (some n) t0) k t).1 = none ∧
       memLookup (memGet (memSet s k v (some n) t0) k t).2 k = none ∧
       (memExists (memSet s k v (some n) t0) k t).1 = 0 ∧
       memLookup (memExists (memSet s k v (some n) t0) k t).2 k = none) ∧
    (t < t0 + n * 1000 →
       (memGet (memSet s k v (some n) t0) k t).1 = some v ∧
       (memGet (memSet s k v (some n) t0) k t).2 = memSet s k v (some n) t0) := by
  have hl := memLookup_set s k v (some n) t0
  simp only [Option.map_some'] at hl
  constructor
  · intro hle
    have hexp : isExpired ⟨v, some (t0 + n * 1000)⟩ t = true := by
      simp [isExpired, hle]
    unfold memGet memExists
    rw [hl]
    dsimp only
    rw [if_pos hexp, if_pos hexp]
    exact ⟨rfl, memLookup_delete _ k, rfl, memLookup_delete _ k⟩
  · intro hlt
    have hexp : isExpired ⟨v, some (t0 + n * 1000)⟩ t = false := by
      simp [isExpired, Nat.not_le.mpr hlt]
    unfold memGet
    rw [hl]
    dsimp only
    rw [if_neg (by simp [hexp])]
    exact ⟨rfl, rfl⟩

/-- Witness for C10: with `EX = 1` set at time 0, a `get` at time 1000
misses and a `get` at time 5 returns the value. -/
theorem memStore_expiry_witness :
    (memGet (memSet ([] : MemStore) "a" "x" (some 1) 0) "a" 1000).1 = none ∧
    (memGet (memSet ([] : MemStore) "a" "x" (some 1) 0) "a" 5).1 = some "x" :=
  ⟨((memStore_expiry ([] : MemStore) "a" "x" 1 0 1000).1 (by decide)).1,
   ((memStore_expiry ([] : MemStore) "a" "x" 1 0 5).2 (by decide)).1⟩

/-! ## C3: refresh rotation prevents reuse -/

/-- C3: once `refreshTokens` has succeeded with a refresh token, any
second call with that same original token fails with a 401 error (the
rotated token is never accepted again). -/
theorem refresh_rotation_no_reuse (tok : SignedToken) (st : RefreshState)
    (now : Nat) (freshId : String) (newTok : SignedToken)
    (st2 : RefreshState)
    (h : refreshTokens tok st now freshId = .ok (newTok, st2)) :
    ∀ now2 freshId2,
      (refreshTokens tok st2 now2 freshId2).isOk = false ∧
      ∀ e, refreshTokens tok st2 now2 freshId2 = .error e →
        e.statusCode = 401 := by
  unfold refreshTokens at h
  cases hv : verifyRefreshToken tok now with
  | error e =>
    rw [hv] at h
    cases h
  | ok p =>
    rw [hv] at h
    dsimp only at h
    by_cases hb : p.sessionId.getD "" ∈ st.blacklist
    · rw [if_pos hb] at h
      cases h
    · rw [if_neg hb] at h
      injection h with hpair
      injection hpair with h1 h2
      intro now2 freshId2
      cases hv2 : verifyRefreshToken tok now2 with
      | error e2 =>
        have heq : refreshTokens tok st2 now2 freshId2 = .error e2 := by
          unfold refreshTokens
          rw [hv2]
        refine ⟨by rw [heq]; rfl, ?_⟩
        intro e he
        rw [heq] at he
        injection he with he2
        rw [← he2, verifyRefreshToken_error_code tok now2 e2 hv2]
      | ok p2 =>
        have hp2 : p2 = p := by
          have ha := (verifyRefreshToken_ok_elim tok now p hv).2.2.1
          have hb2 := (verifyRefreshToken_ok_elim tok now2 p2 hv2).2.2.1
          rw [ha] at hb2
          injection hb2 with he
          exact he.symm
        subst hp2
        have heq : refreshTokens tok st2 now2 freshId2 =
            .error ⟨401, "UNAUTHORIZED"⟩ := by
          unfold refreshTokens
          rw [hv2]
          dsimp only
          rw [if_pos (by rw [← h2]; exact List.mem_cons_self _ _)]
        refine ⟨by rw [heq]; rfl, ?_⟩
        intro e he
        rw [heq] at he
        injection he with he2
        rw [← he2]

/-- Witness for C3: a successful rotation at time 50 blacklists
session `sess-1`, after which re-presenting the original token fails. -/
theorem refresh_rotation_no_reuse_witness :
    (refreshTokens goodRefreshTok ⟨["sess-1"]⟩ 60 "sess-3").isOk = false :=
  (refresh_rotation_no_reuse goodRefreshTok ⟨[]⟩ 50 "sess-2"
    ⟨⟨some 10, some "USER", some "refresh", some "sess-2"⟩,
      refreshSecret, 50 + 60 * 60 * 24 * 7⟩
    ⟨["sess-1"]⟩ rfl 60 "sess-3").1

/-! ## C9: study creation is atomic with the leader membership row -/

/-- C9: `createStudy` either succeeds, leaving both the `Study` row and
exactly one `LEADER`/`APPROVED` membership row for the new study, or
fails leaving the database unchanged (the two inserts run in one
transaction). -/
theorem createStudy_atomic (db : DB) (leaderId : Nat)
    (title description : String) (category : Option String)
    (mm : MaxMembersInput) (insOk : Bool)
    (hfresh : ∀ m ∈ db.members, m.studyId ≠ db.nextStudyId) :
    (∀ s db2,
       createStudy db leaderId title description category mm insOk =
         .ok (s, db2) →
       s.id = db.nextStudyId ∧ s ∈ db2.studies ∧
       (⟨s.id, leaderId, "LEADER", "APPROVED"⟩ : StudyMember) ∈
         db2.members ∧
       (db2.members.filter (fun m2 =>
         m2.studyId = s.id ∧ m2.memberRole = "LEADER")).length = 1) ∧
    (∀ e,
       createStudy db leaderId title description category mm insOk =
         .error e →
       runOp (fun d =>
         createStudy d leaderId title description category mm insOk) db =
         db) := by
  have hfilter : (db.members.filter (fun m2 =>
      m2.studyId = db.nextStudyId ∧ m2.memberRole = "LEADER")) = [] := by
    rw [List.filter_eq_nil_iff]
    intro a ha
    simp only [decide_eq_true_eq, not_and]
    intro hsid
    exact absurd hsid (hfresh a ha)
  constructor
  · intro s db2 hok
    unfold createStudy at hok
    by_cases hval : title = "" ∨ description = ""
    · rw [if_pos hval] at hok
      cases hok
    · rw [if_neg hval] at hok
      cases mm with
      | nan =>
        dsimp only at hok
        cases hok
      | absent =>
        dsimp only at hok
        by_cases hins : insOk = true
        · rw [if_pos hins] at hok
          injection hok with hpair
          injection hpair with h1 h2
          subst h1
          subst h2
          refine ⟨rfl, List.mem_append_right _ (by simp), ?_, ?_⟩
          · exact List.mem_append_right _ (by simp)
          · rw [List.filter_append, hfilter]
            simp
        · rw [if_neg hins] at hok
          cases hok
      | num v =>
        dsimp only at hok
        by_cases hins : insOk = true
        · rw [if_pos hins] at hok
          injection hok with hpair
          injection hpair with h1 h2
          subst h1
          subst h2
          refine ⟨rfl, List.mem_append_right _ (by simp), ?_, ?_⟩
          · exact List.mem_append_right _ (by simp)
          · rw [List.filter_append, hfilter]
            simp
        · rw [if_neg hins] at hok
          cases hok
  · intro e herr
    unfold runOp
    dsimp only
    rw [herr]

/-- Witness for C9: creating a study in `dbJoinable` yields study id 2
with exactly one `LEADER` membership row. -/
theorem createStudy_atomic_witness :
    ((⟨[studyA (some 5), ⟨2, 10, "T", "D", none, none⟩],
       [leaderRow, ⟨2, 10, "LEADER", "APPROVED"⟩],
       [], [], 3, 1⟩ : DB).members.filter (fun m2 =>
         m2.studyId = 2 ∧ m2.memberRole = "LEADER")).length = 1 :=
  ((createStudy_atomic dbJoinable 10 "T" "D" none .absent true
      (by decide)).1
    ⟨2, 10, "T", "D", none, none⟩
    ⟨[studyA (some 5), ⟨2, 10, "T", "D", none, none⟩],
     [leaderRow, ⟨2, 10, "LEADER", "APPROVED"⟩],
     [], [], 3, 1⟩ rfl).2.2.2

/-! ## C4: leader rows are untouchable -/

/-- C4: `setMemberStatus`, `removeMember` and `leave` targeting the
study's leader all fail with 400 `INVALID_OPERATION`, leaving the
database (and hence the leader's membership row) unchanged. -/
theorem leader_invariance (db : DB) (sid : Nat) (study : Study)
    (m : StudyMember)
    (hst : findStudy db sid = some study)
    (hm : findMembership db sid study.leaderId = some m)
    (hrole : m.memberRole = "LEADER") :
    (∀ status,
       status = "APPROVED" ∨ status = "PENDING" ∨ status = "REJECTED" →
       setMemberStatus db sid study.leaderId status =
         .error ⟨400, "INVALID_OPERATION"⟩) ∧
    removeMember db sid study.leaderId =
      .error ⟨400, "INVALID_OPERATION"⟩ ∧
    leaveStudy db sid study.leaderId =
      .error ⟨400, "INVALID_OPERATION"⟩ ∧
    runOp (fun d => setMemberStatus d sid study.leaderId "APPROVED") db =
      db ∧
    runOp (fun d => removeMember d sid study.leaderId) db = db ∧
    runOp (fun d => leaveStudy d sid study.leaderId) db = db := by
  have hset : ∀ status,
      status = "APPROVED" ∨ status = "PENDING" ∨ status = "REJECTED" →
      setMemberStatus db sid study.leaderId status =
        .error ⟨400, "INVALID_OPERATION"⟩ := by
    intro status hval
    have hne : ¬ status = "" := by
      rcases hval with rfl | rfl | rfl <;> decide
    unfold setMemberStatus
    rw [if_neg hne, if_neg (by simp [hval]), hst]
    dsimp only
    rw [hm]
    dsimp only
    rw [if_pos hrole]
  have hrem : removeMember db sid study.leaderId =
      .error ⟨400, "INVALID_OPERATION"⟩ := by
    unfold removeMember
    rw [hm]
    dsimp only
    rw [if_pos hrole]
  have hleave : leaveStudy db sid study.leaderId =
      .error ⟨400, "INVALID_OPERATION"⟩ := by
    unfold leaveStudy
    rw [hm]
    dsimp only
    rw [if_pos hrole]
  refine ⟨hset, hrem, hleave, ?_, ?_, ?_⟩
  · unfold runOp
    dsimp only
    rw [hset "APPROVED" (Or.inl rfl)]
  · unfold runOp
    dsimp only
    rw [hrem]
  · unfold runOp
    dsimp only
    rw [hleave]

/-- Witness for C4: in `dbRejected`, every leader-targeting mutation is
rejected with 400 `INVALID_OPERATION`. -/
theorem leader_invariance_witness :
    setMemberStatus dbRejected 1 10 "APPROVED" =
      .error ⟨400, "INVALID_OPERATION"⟩ ∧
    removeMember dbRejected 1 10 = .error ⟨400, "INVALID_OPERATION"⟩ ∧
    leaveStudy dbRejected 1 10 = .error ⟨400, "INVALID_OPERATION"⟩ :=
  ⟨(leader_invariance dbRejected 1 (studyA none) leaderRow rfl rfl rfl).1
      "APPROVED" (Or.inl rfl),
   (leader_invariance dbRejected 1 (studyA none) leaderRow rfl rfl rfl).2.1,
   (leader_invariance dbRejected 1 (studyA none) leaderRow rfl rfl rfl).2.2.1⟩

/-! ## C1: approval capacity enforcement -/

theorem countP_map_approve (l : List StudyMember) (sid uid : Nat) :
    (l.map (fun x =>
      if x.studyId = sid ∧ x.userId = uid then
        { x with status := "APPROVED" }
      else x)).countP
        (fun x => x.studyId = sid ∧ x.status = "APPROVED") =
    l.countP (fun x =>
      x.studyId = sid ∧ x.status = "APPROVED" ∧ x.userId ≠ uid) +
      l.countP (fun x => x.studyId = sid ∧ x.userId = uid) := by
  induction l with
  | nil => rfl
  | cons a t ih =>
    rw [List.map_cons, List.countP_cons, List.countP_cons,
      List.countP_cons, ih]
    by_cases hk : a.studyId = sid ∧ a.userId = uid
    · rw [if_pos hk]
      obtain ⟨hs, hu⟩ := hk
      simp [hs, hu]
      omega
    · rw [if_neg hk]
      by_cases hs : a.studyId = sid
      · have hu : a.userId ≠ uid := fun hu => hk ⟨hs, hu⟩
        by_cases hap : a.status = "APPROVED"
        · simp [hs, hu, hap]
          omega
        · simp [hs, hu, hap]
      · simp [hs]

/-- C1 (amended): when the study declares a nonzero maximum `mx`, the
status route refuses to approve a (non-leader) member with 409
`STUDY_FULL` whenever the approved count excluding the target already
meets `mx`, and any approval that does succeed leaves the study's
approved member count at most `mx`.  (A declared maximum of `0` is
falsy in the code's truthiness check and disables the gate entirely —
see the counterexample.) -/
theorem capacity_enforced (db : DB) (sid uid : Nat) (study : Study)
    (mx : Int) (m : StudyMember)
    (hst : findStudy db sid = some study)
    (hmx : study.maxMembers = some mx) (hmx0 : mx ≠ 0)
    (hm : findMembership db sid uid = some m)
    (hrole : ¬ m.memberRole = "LEADER")
    (hone : (db.members.filter (fun x =>
      x.studyId = sid ∧ x.userId = uid)).length ≤ 1) :
    ((mx ≤ (approvedCountExcl db sid uid : Int)) →
       setMemberStatus db sid uid "APPROVED" =
         .error ⟨409, "STUDY_FULL"⟩) ∧
    (∀ r db2, setMemberStatus db sid uid "APPROVED" = .ok (r, db2) →
       (approvedCount db2 sid : Int) ≤ mx) := by
  have hpair1 : db.members.countP
      (fun x => x.studyId = sid ∧ x.userId = uid) = 1 := by
    have hle : db.members.countP
        (fun x => x.studyId = sid ∧ x.userId = uid) ≤ 1 := by
      rw [List.countP_eq_length_filter]
      exact hone
    have hm2 : db.members.find?
        (fun x => decide (x.studyId = sid ∧ x.userId = uid)) = some m :=
      hm
    have hpos : 0 < db.members.countP
        (fun x => x.studyId = sid ∧ x.userId = uid) := by
      rw [List.countP_pos_iff]
      have hpm := List.find?_some hm2
      exact ⟨m, List.mem_of_find?_eq_some hm2, hpm⟩
    omega
  constructor
  · intro hge
    unfold setMemberStatus
    rw [if_neg (by decide), if_neg (by decide), hst]
    dsimp only
    rw [hm]
    dsimp only
    rw [if_neg hrole]
    rw [hmx]
    dsimp only
    rw [if_pos ⟨rfl, hmx0, hge⟩]
  · intro r db2 hok
    unfold setMemberStatus at hok
    rw [if_neg (by decide), if_neg (by decide), hst] at hok
    dsimp only at hok
    rw [hm] at hok
    dsimp only at hok
    rw [if_neg hrole] at hok
    rw [hmx] at hok
    dsimp only at hok
    by_cases hfull : "APPROVED" = "APPROVED" ∧ mx ≠ 0 ∧
        mx ≤ (approvedCountExcl db sid uid : Int)
    · rw [if_pos hfull] at hok
      cases hok
    · rw [if_neg hfull] at hok
      injection hok with hpr
      injection hpr with h1 h2
      have hlt : (approvedCountExcl db sid uid : Int) < mx := by
        rcases lt_or_ge (approvedCountExcl db sid uid : Int) mx with h | h
        · exact h
        · exact absurd ⟨rfl, hmx0, h⟩ hfull
      have hcnt : approvedCount db2 sid =
          approvedCountExcl db sid uid + 1 := by
        rw [← h2]
        unfold approvedCount approvedCountExcl
        rw [← List.countP_eq_length_filter, ← List.countP_eq_length_filter]
        dsimp only
        rw [countP_map_approve db.members sid uid, hpair1,
          List.countP_eq_length_filter]
      rw [hcnt]
      push_cast
      omega

/-- Witness for C1's amended statement: with `maxMembers = 2` and both
seats taken, approving pending member 30 fails with 409 `STUDY_FULL`. -/
theorem capacity_enforced_witness :
    setMemberStatus dbCap2 1 30 "APPROVED" = .error ⟨409, "STUDY_FULL"⟩ :=
  (capacity_enforced dbCap2 1 30 (studyA (some 2)) 2
      (memberRow 30 "PENDING") rfl rfl (by decide) rfl (by decide)
      (by decide)).1 (by decide)

/-- Counterexample to C1 as stated: `dbCap0` declares
`maxMembers = 0`, the approved count excluding target 20 is `1 ≥ 0`, so
the claim demands a 409 `STUDY_FULL` failure — but `0` is falsy in
JavaScript, the capacity gate is skipped, the approval succeeds, and
the approved count (2) exceeds the declared maximum. -/
theorem capacity_zero_counterexample :
    findStudy dbCap0 1 = some (studyA (some 0)) ∧
    (studyA (some 0)).maxMembers = some 0 ∧
    (0 : Int) ≤ (approvedCountExcl dbCap0 1 20 : Int) ∧
    (setMemberStatus dbCap0 1 20 "APPROVED").isOk = true ∧
    approvedCount
      (runOp (fun d => setMemberStatus d 1 20 "APPROVED") dbCap0) 1 = 2 := by
  refine ⟨rfl, rfl, by decide, rfl, rfl⟩

/-! ## C2: join semantics -/

/-- C2 (amended): `join` on an existing study fails with 409
`ALREADY_JOINED` whenever ANY membership row exists for the user
(whatever its status — a `REJECTED` member cannot re-join); when no row
exists, it fails with 409 `STUDY_FULL` if the study declares a truthy
maximum that the approved count already meets (capacity IS checked at
join time); otherwise it inserts a `MEMBER`/`PENDING` row. -/
theorem join_code_behavior (db : DB) (sid uid : Nat) (study : Study)
    (hst : findStudy db sid = some study) :
    (∀ m, findMembership db sid uid = some m →
       joinStudy db sid uid = .error ⟨409, "ALREADY_JOINED"⟩) ∧
    (findMembership db sid uid = none →
       (∀ mx, study.maxMembers = some mx → mx ≠ 0 →
          mx ≤ (approvedCount db sid : Int) →
          joinStudy db sid uid = .error ⟨409, "STUDY_FULL"⟩) ∧
       ((maxTruthy study.maxMembers = false ∨
         ∃ mx, study.maxMembers = some mx ∧
           (approvedCount db sid : Int) < mx) →
          joinStudy db sid uid =
            .ok (⟨sid, uid, "MEMBER", "PENDING"⟩,
              { db with members :=
                db.members ++ [⟨sid, uid, "MEMBER", "PENDING"⟩] }))) := by
  constructor
  · intro m hm
    unfold joinStudy
    rw [hst]
    dsimp only
    rw [hm]
  · intro hnone
    constructor
    · intro mx hmx hmx0 hge
      unfold joinStudy
      rw [hst]
      dsimp only
      rw [hnone]
      dsimp only
      rw [hmx]
      dsimp only
      rw [if_pos ⟨hmx0, hge⟩]
    · intro hfree
      unfold joinStudy
      rw [hst]
      dsimp only
      rw [hnone]
      dsimp only
      cases hmm : study.maxMembers with
      | none => rfl
      | some mx =>
        dsimp only
        have hng : ¬ (mx ≠ 0 ∧ mx ≤ (approvedCount db sid : Int)) := by
          rcases hfree with htr | ⟨mx2, hmx2, hlt⟩
          · rw [hmm] at htr
            intro hcontra
            exact absurd htr (by simp [maxTruthy, hcontra.1])
          · rw [hmm] at hmx2
            injection hmx2 with he
            subst he
            intro hcontra
            exact absurd hlt (not_lt.mpr hcontra.2)
        rw [if_neg hng]

/-- Witness for C2's amended statement: in `dbJoinable` (capacity 5, one
approved member, no row for user 20) joining creates a pending row. -/
theorem join_code_behavior_witness :
    joinStudy dbJoinable 1 20 =
      .ok (⟨1, 20, "MEMBER", "PENDING"⟩,
        { dbJoinable with members :=
          dbJoinable.members ++ [⟨1, 20, "MEMBER", "PENDING"⟩] }) :=
  ((join_code_behavior dbJoinable 1 20 (studyA (some 5)) rfl).2 rfl).2
    (Or.inr ⟨5, rfl, by decide⟩)

/-- Counterexample to C2 as stated: user 20's membership in
`dbRejected` is `REJECTED` (not `APPROVED`), yet `join` fails with 409
`ALREADY_JOINED` instead of succeeding and resetting the row to
`PENDING`. -/
theorem join_rejected_counterexample :
    findMembership dbRejected 1 20 = some (memberRow 20 "REJECTED") ∧
    (memberRow 20 "REJECTED").status = "REJECTED" ∧
    joinStudy dbRejected 1 20 = .error ⟨409, "ALREADY_JOINED"⟩ := by
  refine ⟨rfl, rfl, rfl⟩

/-! ## C5: attendance idempotence-by-replacement -/

/-- C5: for an approved member recording on a session with no prior
record, `recordAttendance(PRESENT)` then `recordAttendance(LATE)`
leaves exactly one record for the (session, user) pair, with status
`LATE` and the same row id as the first call (the second call updates
in place rather than duplicating). -/
theorem recordAttendance_idempotent (db : DB) (sid ssid uid : Nat)
    (m : StudyMember) (s : AttendanceSession)
    (hm : findMembership db sid uid = some m)
    (hms : m.status = "APPROVED")
    (hs : findSession db ssid = some s) (hss : s.studyId = sid)
    (hnone : ∀ x ∈ db.records, ¬ (x.sessionId = ssid ∧ x.userId = uid))
    (hid : ∀ x ∈ db.records, x.id ≠ db.nextRecordId) :
    recordAttendance db sid ssid uid "PRESENT" =
      .ok (⟨db.nextRecordId, ssid, uid, "PRESENT"⟩,
        runOp (fun d => recordAttendance d sid ssid uid "PRESENT") db) ∧
    recordAttendance
        (runOp (fun d => recordAttendance d sid ssid uid "PRESENT") db)
        sid ssid uid "LATE" =
      .ok (⟨db.nextRecordId, ssid, uid, "LATE"⟩,
        runOp (fun d => recordAttendance d sid ssid uid "LATE")
          (runOp (fun d => recordAttendance d sid ssid uid "PRESENT") db)) ∧
    ((runOp (fun d => recordAttendance d sid ssid uid "LATE")
        (runOp (fun d => recordAttendance d sid ssid uid "PRESENT")
          db)).records.filter
      (fun x => x.sessionId = ssid ∧ x.userId = uid)) =
      [⟨db.nextRecordId, ssid, uid, "LATE"⟩] := by
  have hfind1 : db.records.find? (fun r =>
      decide (r.sessionId = ssid ∧ r.userId = uid)) = none := by
    rw [List.find?_eq_none]
    intro a ha
    simpa using hnone a ha
  have heq1 : recordAttendance db sid ssid uid "PRESENT" =
      .ok (⟨db.nextRecordId, ssid, uid, "PRESENT"⟩,
        { db with
          records :=
            db.records ++ [⟨db.nextRecordId, ssid, uid, "PRESENT"⟩]
          nextRecordId := db.nextRecordId + 1 }) := by
    unfold recordAttendance
    rw [if_neg (by decide), hm]
    dsimp only
    rw [if_neg (by simp [hms]), hs]
    dsimp only
    rw [if_neg (by simp [hss]), hfind1]
  have hrun1 : runOp (fun d => recordAttendance d sid ssid uid "PRESENT")
      db =
      { db with
        records :=
          db.records ++ [⟨db.nextRecordId, ssid, uid, "PRESENT"⟩]
        nextRecordId := db.nextRecordId + 1 } := by
    unfold runOp
    dsimp only
    rw [heq1]
  have hfind2 :
      (db.records ++
        [(⟨db.nextRecordId, ssid, uid, "PRESENT"⟩ : AttendanceRecord)]).find?
        (fun r => decide (r.sessionId = ssid ∧ r.userId = uid)) =
      some ⟨db.nextRecordId, ssid, uid, "PRESENT"⟩ := by
    rw [List.find?_append, hfind1,
      List.find?_cons_of_pos _ (by simp)]
    rfl
  have hmap :
      (db.records ++
        [(⟨db.nextRecordId, ssid, uid, "PRESENT"⟩ : AttendanceRecord)]).map
        (fun r =>
          if r.id = (⟨db.nextRecordId, ssid, uid,
              "PRESENT"⟩ : AttendanceRecord).id then
            { r with status := "LATE" }
          else r) =
      db.records ++ [⟨db.nextRecordId, ssid, uid, "LATE"⟩] := by
    rw [List.map_append]
    have h1 : db.records.map (fun r =>
        if r.id = (⟨db.nextRecordId, ssid, uid,
            "PRESENT"⟩ : AttendanceRecord).id then
          { r with status := "LATE" }
        else r) = db.records :=
      map_eq_self _ _ (fun a ha => by
        rw [if_neg (hid a ha)])
    rw [h1, List.map_cons, List.map_nil, if_pos rfl]
  have heq2 : recordAttendance
      { db with
        records :=
          db.records ++ [⟨db.nextRecordId, ssid, uid, "PRESENT"⟩]
        nextRecordId := db.nextRecordId + 1 } sid ssid uid "LATE" =
      .ok (⟨db.nextRecordId, ssid, uid, "LATE"⟩,
        { db with
          records := db.records ++ [⟨db.nextRecordId, ssid, uid, "LATE"⟩]
          nextRecordId := db.nextRecordId + 1 }) := by
    unfold recordAttendance
    have hm1 : findMembership
        { db with
          records :=
            db.records ++ [⟨db.nextRecordId, ssid, uid, "PRESENT"⟩]
          nextRecordId := db.nextRecordId + 1 } sid uid = some m := hm
    have hs1 : findSession
        { db with
          records :=
            db.records ++ [⟨db.nextRecordId, ssid, uid, "PRESENT"⟩]
          nextRecordId := db.nextRecordId + 1 } ssid = some s := hs
    rw [if_neg (by decide), hm1]
    dsimp only
    rw [if_neg (by simp [hms]), hs1]
    dsimp only
    rw [if_neg (by simp [hss])]
    rw [hfind2]
    dsimp only
    rw [hmap]
  have hrun2 : runOp (fun d => recordAttendance d sid ssid uid "LATE")
      { db with
        records :=
          db.records ++ [⟨db.nextRecordId, ssid, uid, "PRESENT"⟩]
        nextRecordId := db.nextRecordId + 1 } =
      { db with
        records := db.records ++ [⟨db.nextRecordId, ssid, uid, "LATE"⟩]
        nextRecordId := db.nextRecordId + 1 } := by
    unfold runOp
    dsimp only
    rw [heq2]
  have hfil : (db.records ++
      [(⟨db.nextRecordId, ssid, uid, "LATE"⟩ : AttendanceRecord)]).filter
      (fun x => x.sessionId = ssid ∧ x.userId = uid) =
      [⟨db.nextRecordId, ssid, uid, "LATE"⟩] := by
    rw [List.filter_append]
    have h1 : db.records.filter (fun x =>
        x.sessionId = ssid ∧ x.userId = uid) = [] :=
      List.filter_eq_nil_iff.mpr (fun a ha => by simpa using hnone a ha)
    rw [h1]
    simp
  refine ⟨?_, ?_, ?_⟩
  · rw [hrun1]
    exact heq1
  · rw [hrun1, hrun2]
    exact heq2
  · rw [hrun1, hrun2]
    exact hfil

/-- Witness for C5: in `dbAttend`, member 20 records `PRESENT` then
`LATE` on session 7; exactly one record (id 1, status `LATE`) remains. -/
theorem recordAttendance_idempotent_witness :
    ((runOp (fun d => recordAttendance d 1 7 20 "LATE")
        (runOp (fun d => recordAttendance d 1 7 20 "PRESENT")
          dbAttend)).records.filter
      (fun x => x.sessionId = 7 ∧ x.userId = 20)) =
      [⟨1, 7, 20, "LATE"⟩] :=
  (recordAttendance_idempotent dbAttend 1 7 20
    (memberRow 20 "APPROVED") sessionW rfl rfl rfl rfl
    (by simp [dbAttend]) (by simp [dbAttend])).2.2

/-! ## C6: the live per-user attendance summary -/

theorem groupCounts_foldl_length {α κ : Type} [DecidableEq κ]
    (key : α → κ) (l : List α) :
    (groupCounts key l).foldl (fun acc e => acc + e.2) 0 = l.length := by
  unfold groupCounts
  rw [foldl_add_snd, List.map_map, Nat.zero_add]
  have hcongr : ∀ k ∈ (l.map key).dedup,
      ((fun e : κ × Nat => e.2) ∘ fun k2 =>
        (k2, (l.filter (fun x => key x = k2)).length)) k =
      (l.map key).count k := by
    intro k _
    rw [List.count_eq_countP, List.countP_map]
    dsimp only [Function.comp]
    rw [← List.countP_eq_length_filter]
    apply List.countP_congr
    intro a _
    simp
  rw [List.map_congr_left hcongr, List.sum_map_count_dedup_eq_length,
    List.length_map]

/-- C6 (amended): the per-user summary endpoint responds with
`{studyId, userId, totalSessions, summary}` where `totalSessions` is
the unfiltered count of the study's sessions, the summary's per-status
entries are the counts of the user's records with that status across
the study's sessions, and its total is the number of all such records;
no attendance rate is part of the response. -/
theorem user_attendance_summary_fields (db : DB) (sid uid actorId : Nat)
    (study : Study) (mem : StudyMember)
    (hst : findStudy db sid = some study)
    (hm : findMembership db sid uid = some mem)
    (hap : mem.status = "APPROVED")
    (hperm : actorId = uid ∨ study.leaderId = actorId) :
    getUserAttendance db sid uid actorId =
      .ok ⟨sid, uid, sessionCount db sid,
        userAttendanceGrouped db sid uid,
        (db.records.filter (fun r =>
          decide (r.userId = uid) && recordInStudy db sid r)).length⟩ ∧
    ∀ st, groupLookup (userAttendanceGrouped db sid uid) st =
      db.records.countP (fun r =>
        (decide (r.userId = uid) && recordInStudy db sid r) &&
          decide (r.status = st)) := by
  constructor
  · unfold getUserAttendance
    rw [hst]
    dsimp only
    rw [hm]
    dsimp only
    rw [if_neg (by simp [hap]),
      if_neg (by rcases hperm with h | h <;> simp [h])]
    unfold userAttendanceGrouped
    rw [groupCounts_foldl_length]
  · intro st
    unfold userAttendanceGrouped
    rw [groupLookup_groupCounts, List.countP_filter]
    apply List.countP_congr
    intro a _
    by_cases h1 : a.status = st <;>
      by_cases h2 : (decide (a.userId = uid) &&
        recordInStudy db sid a) = true <;>
      simp [h1, h2]

/-- Witness for C6's amended statement: user 20 viewing their own
summary in `dbDays` gets the grouped counts, their total, and the
unfiltered session count. -/
theorem user_attendance_summary_fields_witness :
    getUserAttendance dbDays 1 20 20 =
      .ok ⟨1, 20, sessionCount dbDays 1,
        userAttendanceGrouped dbDays 1 20,
        (dbDays.records.filter (fun r =>
          decide (r.userId = 20) && recordInStudy dbDays 1 r)).length⟩ :=
  (user_attendance_summary_fields dbDays 1 20 20 (studyA none)
    (memberRow 20 "APPROVED") rfl rfl rfl (Or.inl rfl)).1

/-- Counterexample to C6 as stated: in `dbDays` user 20 is `PRESENT` in
1 of the study\'s 2 sessions, so the claim demands an `attendanceRate`
of `round(1/2·100) = 50` in the per-user summary response — but the
endpoint responds `{studyId: 1, userId: 20, totalSessions: 2, summary:
{PRESENT: 1, total: 1}}`, which carries no attendance-rate field: the
value 50 required by the claim appears nowhere in the response. -/
theorem user_attendance_no_rate_counterexample :
    getUserAttendance dbDays 1 20 20 =
      .ok ⟨1, 20, 2, [("PRESENT", 1)], 1⟩ ∧
    attendanceRateSpec 1 0 2 = 50 ∧
    (1 : ℚ) ≠ attendanceRateSpec 1 0 2 ∧
    (20 : ℚ) ≠ attendanceRateSpec 1 0 2 ∧
    (2 : ℚ) ≠ attendanceRateSpec 1 0 2 := by
  have h50 : attendanceRateSpec 1 0 2 = 50 := by
    unfold attendanceRateSpec round2
    rw [if_neg (by norm_num)]
    have harg : (((1 : Nat) : ℚ) + ((0 : Nat) : ℚ)) / ((2 : Nat) : ℚ) *
        100 * 100 = ((5000 : ℤ) : ℚ) := by
      norm_num
    rw [harg, round_intCast]
    norm_num
  refine ⟨rfl, h50, ?_, ?_, ?_⟩ <;> rw [h50] <;> norm_num

/-! ## C7: date-range filtering of the attendance summary -/

theorem summaryStatusCount_eq (db : DB) (sid : Nat)
    (fromDate toDate : Option Int) (st : String) :
    summaryStatusCount db sid fromDate toDate st =
      db.records.countP (fun r =>
        recordInRange db sid fromDate toDate r &&
          decide (r.status = st)) := by
  unfold summaryStatusCount summaryGrouped
  rw [groupLookup_groupCounts, List.countP_filter]
  apply List.countP_congr
  intro a _
  by_cases h : a.status = st <;>
    by_cases h2 : recordInRange db sid fromDate toDate a <;>
      simp [h, h2]

theorem summaryTotal_eq (db : DB) (sid : Nat)
    (fromDate toDate : Option Int) :
    summaryTotal db sid fromDate toDate =
      (db.records.filter (recordInRange db sid fromDate toDate)).length := by
  unfold summaryTotal summaryGrouped groupCounts
  rw [foldl_add_snd, List.map_map, Nat.zero_add]
  have hcongr : ∀ k ∈ ((db.records.filter
      (recordInRange db sid fromDate toDate)).map
        (fun r => r.status)).dedup,
      ((fun e : String × Nat => e.2) ∘ fun k2 =>
        (k2, ((db.records.filter
          (recordInRange db sid fromDate toDate)).filter
            (fun x => x.status = k2)).length)) k =
      ((db.records.filter (recordInRange db sid fromDate toDate)).map
        (fun r => r.status)).count k := by
    intro k _
    rw [List.count_eq_countP, List.countP_map]
    dsimp only [Function.comp]
    rw [← List.countP_eq_length_filter]
    apply List.countP_congr
    intro a _
    simp
  rw [List.map_congr_left hcongr, List.sum_map_count_dedup_eq_length,
    List.length_map]

/-- C7: a record whose session date lies outside the requested
`[from, to]` range contributes neither to the per-status counts nor to
the total of the summary, while an in-range record contributes exactly
one to both. -/
theorem summary_range_filter (db : DB) (sid : Nat) (f t : Int)
    (r : AttendanceRecord) (s : AttendanceSession)
    (hs : findSession db r.sessionId = some s)
    (hstudy : s.studyId = sid) :
    (¬ (f ≤ s.date ∧ s.date ≤ t) →
       summaryTotal { db with records := r :: db.records } sid
           (some f) (some t) =
         summaryTotal db sid (some f) (some t) ∧
       ∀ st, summaryStatusCount { db with records := r :: db.records }
           sid (some f) (some t) st =
         summaryStatusCount db sid (some f) (some t) st) ∧
    ((f ≤ s.date ∧ s.date ≤ t) →
       summaryTotal { db with records := r :: db.records } sid
           (some f) (some t) =
         summaryTotal db sid (some f) (some t) + 1 ∧
       summaryStatusCount { db with records := r :: db.records } sid
           (some f) (some t) r.status =
         summaryStatusCount db sid (some f) (some t) r.status + 1) := by
  have hr2 : recordInRange { db with records := r :: db.records } sid
      (some f) (some t) = recordInRange db sid (some f) (some t) := rfl
  constructor
  · intro hout
    have hvalf : recordInRange db sid (some f) (some t) r = false := by
      unfold recordInRange
      rw [hs]
      rcases not_and_or.mp hout with h | h <;> simp [hstudy, h]
    constructor
    · rw [summaryTotal_eq, summaryTotal_eq, hr2]
      dsimp only
      rw [List.filter_cons]
      simp [hvalf]
    · intro st
      rw [summaryStatusCount_eq, summaryStatusCount_eq, hr2]
      dsimp only
      rw [List.countP_cons]
      simp [hvalf]
  · intro hin
    have hvalt : recordInRange db sid (some f) (some t) r = true := by
      unfold recordInRange
      rw [hs]
      simp [hstudy, hin.1, hin.2]
    constructor
    · rw [summaryTotal_eq, summaryTotal_eq, hr2]
      dsimp only
      rw [List.filter_cons]
      simp [hvalt]
    · rw [summaryStatusCount_eq, summaryStatusCount_eq, hr2]
      dsimp only
      rw [List.countP_cons]
      simp [hvalt]

/-- Witness for C7, realizing the spec's example: with sessions on
day 1 and day 5 and the range `[2, 10]`, adding day 1's record leaves
the summary total unchanged (only day 5's attendance is counted). -/
theorem summary_range_filter_witness :
    summaryTotal { dbDays with records := recDay1 :: dbDays.records } 1
        (some 2) (some 10) =
      summaryTotal dbDays 1 (some 2) (some 10) ∧
    summaryTotal dbDays 1 (some 2) (some 10) = 1 :=
  ⟨((summary_range_filter dbDays 1 2 10 recDay1 sessionDay1 rfl rfl).1
      (by decide)).1,
   by decide⟩

end GoGoStudy
